import Mathlib

/-!
Verification of `ai-flight-planner`.

Shallow embedding of the two scripts `src/web/export_waypoints_day3.py` and
`src/web/export_waypoints_day3_backup.py`, and proofs of the specified
properties.

Modelling conventions:
* Python floats are modelled as real numbers (`ℝ`); the spec's properties are
  stated over the exact real-valued semantics of the formulas.
* `math.radians`, `math.sin`, `math.cos`, `math.sqrt`, `math.atan2`,
  `math.asin` become `radians`, `Real.sin`, `Real.cos`, `Real.sqrt`,
  `atan2` (defined via `Complex.arg`, which is the mathematical atan2
  convention used by Python) and `Real.arcsin`.  In every reachable state the
  arguments stay inside the domains where these totalised Lean functions agree
  with the original Python ones (the haversine `a` term is proved to lie in
  `[0, 1]`).
* `generate_waypoints` returns `Option`: `none` models the uncaught
  `ZeroDivisionError` (either at `distance // spacing` when `spacing = 0`, or
  at `f = i / num_points` when `num_points = 0`).
* The exporters write a sequence of `\n`-terminated lines to a file; they are
  modelled as producing the list of lines (without the terminating newline),
  parametrised by the Python float-to-string rendering `fmt : ℝ → String`
  (the `str(i)` rendering of the integer index is `toString`).
-/

namespace FlightPlanner

noncomputable section

open Real

/-- Python's `math.radians`: `radians(x) = x * pi / 180`. -/
def radians (x : ℝ) : ℝ := x * (Real.pi / 180)

/-- Python's `math.atan2(y, x)`: the argument of the complex number `x + y*i`,
in `(-π, π]`. -/
def atan2 (y x : ℝ) : ℝ := Complex.arg ⟨x, y⟩

/-- The `a` term `sin(dphi/2)**2 + cos(phi1) * cos(phi2) * sin(dlambda/2)**2`
computed (with identical formulas) inside both `haversine_distance`
implementations, with `phi1 = radians(lat1)`, `phi2 = radians(lat2)`,
`dphi = radians(lat2 - lat1)`, `dlambda = radians(lon2 - lon1)`. -/
def hav_a (lat1 lon1 lat2 lon2 : ℝ) : ℝ :=
  Real.sin (radians (lat2 - lat1) / 2) ^ 2 +
    Real.cos (radians lat1) * Real.cos (radians lat2) *
      Real.sin (radians (lon2 - lon1) / 2) ^ 2

/-- Function `haversine_distance` from `src/web/export_waypoints_day3.py` (lines 3-10):
`R * (2 * atan2(sqrt(a), sqrt(1 - a)))` with `R = 6371000`. -/
def haversine_distance (lat1 lon1 lat2 lon2 : ℝ) : ℝ :=
  6371000 * (2 * atan2 (Real.sqrt (hav_a lat1 lon1 lat2 lon2))
    (Real.sqrt (1 - hav_a lat1 lon1 lat2 lon2)))

/-- Function `haversine_distance` from `src/web/export_waypoints_day3_backup.py`
(lines 4-10): `2 * R * asin(sqrt(a))` with `R = 6371000`. -/
def haversine_distance_backup (lat1 lon1 lat2 lon2 : ℝ) : ℝ :=
  2 * 6371000 * Real.arcsin (Real.sqrt (hav_a lat1 lon1 lat2 lon2))

/-- A waypoint `(lat, lon, alt)`. -/
abbrev Waypoint : Type := ℝ × ℝ × ℝ

/-- Function `generate_waypoints` from `src/web/export_waypoints_day3.py` (lines
12-24).  `num_points = int(distance // spacing)` is the integer floor of
`distance / spacing` (for any nonzero `spacing`); the loop runs
`i = 0, …, num_points` and builds
`(lat1 + (lat2-lat1)*f, lon1 + (lon2-lon1)*f, 100)` with
`f = i / num_points`.  `none` models the uncaught `ZeroDivisionError`:
at `distance // spacing` when `spacing = 0`, and at `f = i / num_points`
(first hit at `i = 0`) when `num_points = 0`.  When `num_points < 0` the
`range` is empty, so no division is executed and `[]` is returned. -/
def generate_waypoints (start endp : ℝ × ℝ) (spacing : ℝ := 1000) :
    Option (List Waypoint) :=
  let lat1 := start.1
  let lon1 := start.2
  let lat2 := endp.1
  let lon2 := endp.2
  if spacing = 0 then none
  else
    let distance := haversine_distance lat1 lon1 lat2 lon2
    let num_points : ℤ := ⌊distance / spacing⌋
    if num_points = 0 then none
    else some ((List.range (num_points + 1).toNat).map (fun (i : ℕ) =>
      let f : ℝ := (i : ℝ) / (num_points : ℝ)
      (lat1 + (lat2 - lat1) * f, lon1 + (lon2 - lon1) * f, (100 : ℝ))))

end

/-- Function `export_to_missionplanner` from `src/web/export_waypoints_day3.py`
(lines 26-31), modelled as the list of written lines: the header
`QGC WPL 110` followed by
`f"{i}\t0\t3\t16\t0\t0\t0\t0\t{lat}\t{lon}\t{alt}\t1"` for each enumerated
waypoint.  `fmt` is Python's float-to-string rendering. -/
def export_to_missionplanner (fmt : ℝ → String) (waypoints : List Waypoint) :
    List String :=
  "QGC WPL 110" ::
    waypoints.enum.map (fun p =>
      toString p.1 ++ "\t0\t3\t16\t0\t0\t0\t0\t" ++ fmt p.2.1 ++ "\t" ++
        fmt p.2.2.1 ++ "\t" ++ fmt p.2.2.2 ++ "\t1")

/-- Function `export_waypoints` from `src/web/export_waypoints_day3_backup.py`
(lines 12-18), modelled as the list of written lines; the line format is
identical to `export_to_missionplanner`. -/
def export_waypoints (fmt : ℝ → String) (waypoints : List Waypoint) :
    List String :=
  "QGC WPL 110" ::
    waypoints.enum.map (fun p =>
      toString p.1 ++ "\t0\t3\t16\t0\t0\t0\t0\t" ++ fmt p.2.1 ++ "\t" ++
        fmt p.2.2.1 ++ "\t" ++ fmt p.2.2.2 ++ "\t1")

/-! Helper lemmas about the haversine `a` term. -/

theorem radians_sub (x y : ℝ) : radians (x - y) = radians x - radians y := by
  unfold radians; ring

theorem radians_zero : radians 0 = 0 := by
  unfold radians; ring

/-- Generic form of the haversine `a` term: it is nonnegative for all real
angles `p`, `q`, `v`. -/
theorem a_term_nonneg (p q v : ℝ) :
    0 ≤ Real.sin ((q - p) / 2) ^ 2 + Real.cos p * Real.cos q * Real.sin v ^ 2 := by
  have hpy1 := Real.sin_sq_add_cos_sq p
  have hpy2 := Real.sin_sq_add_cos_sq q
  have hcos2 : Real.cos (2 * ((q - p) / 2)) = 2 * Real.cos ((q - p) / 2) ^ 2 - 1 :=
    Real.cos_two_mul _
  have hhalf : (2 : ℝ) * ((q - p) / 2) = q - p := by ring
  have hpyh := Real.sin_sq_add_cos_sq ((q - p) / 2)
  have hsub : Real.cos (q - p) = Real.cos q * Real.cos p + Real.sin q * Real.sin p :=
    Real.cos_sub q p
  have hK : Real.sin ((q - p) / 2) ^ 2
      = (1 - Real.cos q * Real.cos p - Real.sin q * Real.sin p) / 2 := by
    rw [hhalf, hsub] at hcos2; linarith
  have ht0 : 0 ≤ Real.sin v ^ 2 := sq_nonneg _
  have ht1 : Real.sin v ^ 2 ≤ 1 := by
    nlinarith [sq_nonneg (Real.cos v), Real.sin_sq_add_cos_sq v]
  have e0 : 0 ≤ 1 - Real.cos q * Real.cos p - Real.sin q * Real.sin p := by
    nlinarith [sq_nonneg (Real.cos p - Real.cos q), sq_nonneg (Real.sin p - Real.sin q)]
  have e1 : 0 ≤ 1 + Real.cos q * Real.cos p - Real.sin q * Real.sin p := by
    nlinarith [sq_nonneg (Real.cos p + Real.cos q), sq_nonneg (Real.sin p - Real.sin q)]
  rw [hK]
  nlinarith [mul_nonneg (sub_nonneg.mpr ht1) e0, mul_nonneg ht0 e1]

/-- Generic form of the haversine `a` term: it is at most `1` for all real
angles `p`, `q`, `v`. -/
theorem a_term_le_one (p q v : ℝ) :
    Real.sin ((q - p) / 2) ^ 2 + Real.cos p * Real.cos q * Real.sin v ^ 2 ≤ 1 := by
  have hpy1 := Real.sin_sq_add_cos_sq p
  have hpy2 := Real.sin_sq_add_cos_sq q
  have hcos2 : Real.cos (2 * ((q - p) / 2)) = 2 * Real.cos ((q - p) / 2) ^ 2 - 1 :=
    Real.cos_two_mul _
  have hhalf : (2 : ℝ) * ((q - p) / 2) = q - p := by ring
  have hpyh := Real.sin_sq_add_cos_sq ((q - p) / 2)
  have hsub : Real.cos (q - p) = Real.cos q * Real.cos p + Real.sin q * Real.sin p :=
    Real.cos_sub q p
  have hK : Real.sin ((q - p) / 2) ^ 2
      = (1 - Real.cos q * Real.cos p - Real.sin q * Real.sin p) / 2 := by
    rw [hhalf, hsub] at hcos2; linarith
  have ht0 : 0 ≤ Real.sin v ^ 2 := sq_nonneg _
  have ht1 : Real.sin v ^ 2 ≤ 1 := by
    nlinarith [sq_nonneg (Real.cos v), Real.sin_sq_add_cos_sq v]
  have e2 : 0 ≤ 1 + Real.cos q * Real.cos p + Real.sin q * Real.sin p := by
    nlinarith [sq_nonneg (Real.cos p + Real.cos q), sq_nonneg (Real.sin p + Real.sin q)]
  have e3 : 0 ≤ 1 - Real.cos q * Real.cos p + Real.sin q * Real.sin p := by
    nlinarith [sq_nonneg (Real.cos p - Real.cos q), sq_nonneg (Real.sin p + Real.sin q)]
  rw [hK]
  nlinarith [mul_nonneg (sub_nonneg.mpr ht1) e2, mul_nonneg ht0 e3]

theorem hav_a_nonneg (lat1 lon1 lat2 lon2 : ℝ) : 0 ≤ hav_a lat1 lon1 lat2 lon2 := by
  unfold hav_a
  rw [radians_sub lat2 lat1]
  exact a_term_nonneg (radians lat1) (radians lat2) (radians (lon2 - lon1) / 2)

theorem hav_a_le_one (lat1 lon1 lat2 lon2 : ℝ) : hav_a lat1 lon1 lat2 lon2 ≤ 1 := by
  unfold hav_a
  rw [radians_sub lat2 lat1]
  exact a_term_le_one (radians lat1) (radians lat2) (radians (lon2 - lon1) / 2)

/-- For `a ∈ [0, 1]`, `atan2(sqrt(a), sqrt(1 - a)) = asin(sqrt(a))`. -/
theorem atan2_sqrt_arcsin {a : ℝ} (h0 : 0 ≤ a) (h1 : a ≤ 1) :
    atan2 (Real.sqrt a) (Real.sqrt (1 - a)) = Real.arcsin (Real.sqrt a) := by
  have hs0 : 0 ≤ Real.sqrt a := Real.sqrt_nonneg a
  have hs1 : Real.sqrt a ≤ 1 := by
    rw [show (1 : ℝ) = Real.sqrt 1 from (Real.sqrt_one).symm]
    exact Real.sqrt_le_sqrt h1
  set θ := Real.arcsin (Real.sqrt a) with hθ
  have hsin : Real.sin θ = Real.sqrt a :=
    Real.sin_arcsin (by linarith) hs1
  have hcos : Real.cos θ = Real.sqrt (1 - a) := by
    rw [hθ, Real.cos_arcsin]
    congr 1
    rw [Real.sq_sqrt h0]
  have hmem : θ ∈ Set.Ioc (-Real.pi) Real.pi := by
    constructor
    · have := Real.neg_pi_div_two_le_arcsin (Real.sqrt a)
      have hπ := Real.pi_pos
      rw [hθ]; linarith
    · have := Real.arcsin_le_pi_div_two (Real.sqrt a)
      have hπ := Real.pi_pos
      rw [hθ]; linarith
  unfold atan2
  have hz : (⟨Real.sqrt (1 - a), Real.sqrt a⟩ : ℂ)
      = Complex.cos (θ : ℝ) + Complex.sin (θ : ℝ) * Complex.I := by
    rw [Complex.mk_eq_add_mul_I, ← hsin, ← hcos, Complex.ofReal_cos, Complex.ofReal_sin]
  rw [hz]
  exact Complex.arg_cos_add_sin_mul_I hmem

/-- The two haversine implementations agree for every real input. -/
theorem haversine_eq_backup (lat1 lon1 lat2 lon2 : ℝ) :
    haversine_distance lat1 lon1 lat2 lon2 = haversine_distance_backup lat1 lon1 lat2 lon2 := by
  unfold haversine_distance haversine_distance_backup
  rw [atan2_sqrt_arcsin (hav_a_nonneg lat1 lon1 lat2 lon2) (hav_a_le_one lat1 lon1 lat2 lon2)]
  ring

theorem haversine_nonneg (lat1 lon1 lat2 lon2 : ℝ) :
    0 ≤ haversine_distance lat1 lon1 lat2 lon2 := by
  rw [haversine_eq_backup]
  unfold haversine_distance_backup
  have h := Real.arcsin_nonneg.mpr (Real.sqrt_nonneg (hav_a lat1 lon1 lat2 lon2))
  nlinarith

theorem hav_a_self (lat lon : ℝ) : hav_a lat lon lat lon = 0 := by
  unfold hav_a
  simp [sub_self, radians_zero]

theorem hav_a_symm (lat1 lon1 lat2 lon2 : ℝ) :
    hav_a lat2 lon2 lat1 lon1 = hav_a lat1 lon1 lat2 lon2 := by
  unfold hav_a
  have h1 : radians (lat1 - lat2) = -radians (lat2 - lat1) := by unfold radians; ring
  have h2 : radians (lon1 - lon2) = -radians (lon2 - lon1) := by unfold radians; ring
  rw [h1, h2, neg_div, neg_div, Real.sin_neg, Real.sin_neg]
  ring

/-! Helper lemmas about `generate_waypoints`. -/

theorem gw_eq_some (lat1 lon1 lat2 lon2 s : ℝ) (hs : s ≠ 0)
    (hn : ⌊haversine_distance lat1 lon1 lat2 lon2 / s⌋ ≠ 0) :
    generate_waypoints (lat1, lon1) (lat2, lon2) s =
      some ((List.range ((⌊haversine_distance lat1 lon1 lat2 lon2 / s⌋ + 1).toNat)).map
        (fun (i : ℕ) =>
          (lat1 + (lat2 - lat1) * ((i : ℝ) / ((⌊haversine_distance lat1 lon1 lat2 lon2 / s⌋ : ℤ) : ℝ)),
           lon1 + (lon2 - lon1) * ((i : ℝ) / ((⌊haversine_distance lat1 lon1 lat2 lon2 / s⌋ : ℤ) : ℝ)),
           (100 : ℝ)))) := by
  unfold generate_waypoints
  simp only [if_neg hs, if_neg hn]

theorem gw_none_iff (lat1 lon1 lat2 lon2 s : ℝ) (hs : s ≠ 0) :
    generate_waypoints (lat1, lon1) (lat2, lon2) s = none ↔
      ⌊haversine_distance lat1 lon1 lat2 lon2 / s⌋ = 0 := by
  unfold generate_waypoints
  simp only [if_neg hs]
  split_ifs with h
  · simp [h]
  · simp [h]

/-! Concrete evaluations. -/

theorem atan2_one_zero : atan2 1 0 = Real.pi / 2 := by
  unfold atan2
  rw [show (⟨0, 1⟩ : ℂ) = Complex.I from rfl]
  exact Complex.arg_I

theorem atan2_zero_one : atan2 0 1 = 0 := by
  unfold atan2
  rw [show (⟨1, 0⟩ : ℂ) = 1 from by apply Complex.ext <;> simp]
  exact Complex.arg_one

/-- On identical coordinates `haversine_distance` returns `0` (atan2 version). -/
theorem haversine_self (lat lon : ℝ) : haversine_distance lat lon lat lon = 0 := by
  unfold haversine_distance
  rw [hav_a_self, Real.sqrt_zero, sub_zero, Real.sqrt_one, atan2_zero_one]
  ring

/-- On identical coordinates the backup `haversine_distance` returns `0` (asin version). -/
theorem haversine_backup_self (lat lon : ℝ) : haversine_distance_backup lat lon lat lon = 0 := by
  unfold haversine_distance_backup
  rw [hav_a_self, Real.sqrt_zero, Real.arcsin_zero]
  ring

theorem hav_a_0_180 : hav_a 0 0 0 180 = 1 := by
  unfold hav_a radians
  have h1 : ((0 : ℝ) - 0) * (Real.pi / 180) / 2 = 0 := by ring
  have h2 : ((180 : ℝ) - 0) * (Real.pi / 180) / 2 = Real.pi / 2 := by ring
  have h3 : (0 : ℝ) * (Real.pi / 180) = 0 := by ring
  rw [h1, h2, h3, Real.sin_zero, Real.sin_pi_div_two, Real.cos_zero]
  norm_num

/-- The distance from `(0, 0)` to `(0, 180)` is half the Earth circumference,
`6371000 * π` meters. -/
theorem hav_0_180 : haversine_distance 0 0 0 180 = 6371000 * Real.pi := by
  unfold haversine_distance
  rw [hav_a_0_180, show (1 : ℝ) - 1 = 0 from by ring, Real.sqrt_zero, Real.sqrt_one,
    atan2_one_zero]
  ring

theorem floor_pi : ⌊Real.pi⌋ = 3 := by
  rw [Int.floor_eq_iff]
  constructor
  · norm_num [Real.pi_gt_three.le]
  · norm_num [Real.pi_lt_four]

theorem floor_hav_0_180 : ⌊haversine_distance 0 0 0 180 / 6371000⌋ = 3 := by
  rw [hav_0_180, mul_div_cancel_left₀ _ (by norm_num : (6371000 : ℝ) ≠ 0)]
  exact floor_pi

/-- Fully evaluated run: from `(0, 0)` to `(0, 180)` with spacing `6371000`
the generator returns the four points at longitudes `0, 60, 120, 180`. -/
theorem gw_concrete :
    generate_waypoints (0, 0) (0, 180) 6371000 =
      some [(0, 0, 100), (0, 60, 100), (0, 120, 100), (0, 180, 100)] := by
  rw [gw_eq_some 0 0 0 180 6371000 (by norm_num) (by rw [floor_hav_0_180]; norm_num)]
  rw [floor_hav_0_180]
  rw [show ((3 : ℤ) + 1).toNat = 4 from rfl]
  rw [show List.range 4 = [0, 1, 2, 3] from rfl]
  norm_num

/-! Remaining helpers. -/

theorem haversine_symm (lat1 lon1 lat2 lon2 : ℝ) :
    haversine_distance lat2 lon2 lat1 lon1 = haversine_distance lat1 lon1 lat2 lon2 := by
  unfold haversine_distance
  rw [hav_a_symm]

theorem haversine_backup_symm (lat1 lon1 lat2 lon2 : ℝ) :
    haversine_distance_backup lat2 lon2 lat1 lon1 = haversine_distance_backup lat1 lon1 lat2 lon2 := by
  unfold haversine_distance_backup
  rw [hav_a_symm]

/-- The waypoint line of the exporters is the 12 tab-separated fields
`i, 0, 3, 16, 0, 0, 0, 0, lat, lon, alt, 1`. -/
theorem line_format (idx : ℕ) (s1 s2 s3 : String) :
    toString idx ++ "\t0\t3\t16\t0\t0\t0\t0\t" ++ s1 ++ "\t" ++ s2 ++ "\t" ++ s3 ++ "\t1"
      = String.intercalate "\t"
          [toString idx, "0", "3", "16", "0", "0", "0", "0", s1, s2, s3, "1"] := by
  simp only [String.intercalate, String.intercalate.go]
  rw [show ("\t0\t3\t16\t0\t0\t0\t0\t" : String)
        = "\t" ++ "0" ++ "\t" ++ "3" ++ "\t" ++ "16" ++ "\t" ++ "0" ++ "\t" ++ "0" ++ "\t" ++
          "0" ++ "\t" ++ "0" ++ "\t" from by decide,
      show ("\t1" : String) = "\t" ++ "1" from by decide]
  simp [String.append_assoc]

theorem head_map_range {α : Type} (g : ℕ → α) (n : ℕ) :
    ((List.range (n + 1)).map g).head? = some (g 0) := by
  rw [List.range_succ_eq_map]
  simp

theorem getLast_map_range {α : Type} (g : ℕ → α) (n : ℕ) :
    ((List.range (n + 1)).map g).getLast? = some (g n) := by
  rw [List.range_succ, List.map_append]
  simp [List.getLast?_concat]

theorem interp_bounds (x y f : ℝ) (h0 : 0 ≤ f) (h1 : f ≤ 1) :
    min x y ≤ x + (y - x) * f ∧ x + (y - x) * f ≤ max x y := by
  rcases le_total x y with h | h
  · rw [min_eq_left h, max_eq_right h]
    constructor <;> nlinarith
  · rw [min_eq_right h, max_eq_left h]
    constructor <;> nlinarith

/-! The claims. -/

/-- C4: For every coordinate `(lat, lon)`, `haversine_distance(lat, lon, lat, lon)`
returns `0`, in both the atan2-based and the asin-based implementation. -/
theorem C4_zero_distance_identical (lat lon : ℝ) :
    haversine_distance lat lon lat lon = 0 ∧ haversine_distance_backup lat lon lat lon = 0 :=
  ⟨haversine_self lat lon, haversine_backup_self lat lon⟩

/-- C5: For every pair of coordinates `A` and `B`,
`haversine_distance(A, B) = haversine_distance(B, A)`, in both the atan2-based
and the asin-based implementation. -/
theorem C5_distance_symmetric (lat1 lon1 lat2 lon2 : ℝ) :
    haversine_distance lat1 lon1 lat2 lon2 = haversine_distance lat2 lon2 lat1 lon1 ∧
    haversine_distance_backup lat1 lon1 lat2 lon2 = haversine_distance_backup lat2 lon2 lat1 lon1 :=
  ⟨(haversine_symm lat1 lon1 lat2 lon2).symm, (haversine_backup_symm lat1 lon1 lat2 lon2).symm⟩

/-- C8: The atan2-based `haversine_distance` of `export_waypoints_day3.py` and
the asin-based one of `export_waypoints_day3_backup.py` return the same
distance on every input. -/
theorem C8_implementations_equivalent (lat1 lon1 lat2 lon2 : ℝ) :
    haversine_distance lat1 lon1 lat2 lon2 = haversine_distance_backup lat1 lon1 lat2 lon2 :=
  haversine_eq_backup lat1 lon1 lat2 lon2

/-- C6: For every waypoint list of length `N` (including `N = 0`), each
exporter writes exactly `N + 1` lines: one header plus one line per waypoint;
an empty list produces a header-only file. -/
theorem C6_line_count (fmt : ℝ → String) (ws : List Waypoint) :
    (export_to_missionplanner fmt ws).length = ws.length + 1 ∧
    (export_waypoints fmt ws).length = ws.length + 1 ∧
    export_to_missionplanner fmt [] = ["QGC WPL 110"] ∧
    export_waypoints fmt [] = ["QGC WPL 110"] := by
  refine ⟨?_, ?_, ?_, ?_⟩ <;>
    simp [export_to_missionplanner, export_waypoints]

/-- C7: For every waypoint list, the exporters' first output line is the
literal `QGC WPL 110`, and the line at file position `i + 1` (for the
waypoint at list position `i`) is the 12 tab-separated fields
`i, 0, 3, 16, 0, 0, 0, 0, lat, lon, alt, 1`; indices are consecutive from 0
in list order. -/
theorem C7_line_fields (fmt : ℝ → String) (ws : List Waypoint) :
    (export_to_missionplanner fmt ws).head? = some "QGC WPL 110" ∧
    (export_waypoints fmt ws).head? = some "QGC WPL 110" ∧
    ∀ i w, ws.get? i = some w →
      (export_to_missionplanner fmt ws).get? (i + 1) =
        some (String.intercalate "\t"
          [toString i, "0", "3", "16", "0", "0", "0", "0",
           fmt w.1, fmt w.2.1, fmt w.2.2, "1"]) ∧
      (export_waypoints fmt ws).get? (i + 1) =
        some (String.intercalate "\t"
          [toString i, "0", "3", "16", "0", "0", "0", "0",
           fmt w.1, fmt w.2.1, fmt w.2.2, "1"]) := by
  refine ⟨rfl, rfl, ?_⟩
  intro i w hw
  constructor <;>
  · simp only [export_to_missionplanner, export_waypoints]
    rw [List.get?_cons_succ, List.get?_map, List.get?_enum, hw]
    simp only [Option.map_some']
    rw [line_format]

/-- Witness for C7 at `fmt = const ""`, `ws = [(0, 0, 100)]`, `i = 0`. -/
theorem C7_witness :
    ([((0 : ℝ), (0 : ℝ), (100 : ℝ))] : List Waypoint).get? 0 = some (0, 0, 100) ∧
    (export_to_missionplanner (fun _ => "") [(0, 0, 100)]).get? 1 =
      some (String.intercalate "\t"
        [toString (0 : ℕ), "0", "3", "16", "0", "0", "0", "0", "", "", "", "1"]) :=
  ⟨rfl, ((C7_line_fields (fun _ => "") [(0, 0, 100)]).2.2 0 (0, 0, 100) rfl).1⟩

/-- C1: For every start and end coordinate and every positive spacing `s` with
`haversine_distance ≥ s`, `generate_waypoints` returns a list of exactly
`⌊distance / s⌋ + 1` waypoints. -/
theorem C1_waypoint_count (lat1 lon1 lat2 lon2 s : ℝ) (hs : 0 < s)
    (hd : s ≤ haversine_distance lat1 lon1 lat2 lon2) :
    ∃ l, generate_waypoints (lat1, lon1) (lat2, lon2) s = some l ∧
      (l.length : ℤ) = ⌊haversine_distance lat1 lon1 lat2 lon2 / s⌋ + 1 := by
  have hs0 : s ≠ 0 := ne_of_gt hs
  have h1 : (1 : ℤ) ≤ ⌊haversine_distance lat1 lon1 lat2 lon2 / s⌋ := by
    rw [Int.le_floor, Int.cast_one, le_div_iff hs]
    linarith
  have hn : ⌊haversine_distance lat1 lon1 lat2 lon2 / s⌋ ≠ 0 := by omega
  refine ⟨_, gw_eq_some lat1 lon1 lat2 lon2 s hs0 hn, ?_⟩
  rw [List.length_map, List.length_range, Int.toNat_of_nonneg (by omega)]

/-- Witness for C1: from `(0,0)` to `(0,180)` with spacing `10^6`. -/
theorem C1_witness :
    (0 : ℝ) < 1000000 ∧ (1000000 : ℝ) ≤ haversine_distance 0 0 0 180 ∧
    ∃ l, generate_waypoints (0, 0) (0, 180) 1000000 = some l ∧
      (l.length : ℤ) = ⌊haversine_distance 0 0 0 180 / 1000000⌋ + 1 := by
  have h1 : (0 : ℝ) < 1000000 := by norm_num
  have h2 : (1000000 : ℝ) ≤ haversine_distance 0 0 0 180 := by
    rw [hav_0_180]
    nlinarith [Real.pi_gt_three]
  exact ⟨h1, h2, C1_waypoint_count 0 0 0 180 1000000 h1 h2⟩

/-- C2 counterexample: with `spacing = 0` the Python code also hits an
uncaught `ZeroDivisionError` (at `distance // spacing`), although the
distance (`0`) is not strictly less than the spacing (`0`), so the claimed
"if and only if" fails as stated. -/
theorem C2_counterexample :
    generate_waypoints (0, 0) (0, 0) 0 = none ∧ ¬ haversine_distance 0 0 0 0 < 0 := by
  constructor
  · unfold generate_waypoints
    simp
  · rw [haversine_self]
    exact lt_irrefl 0

/-- C2 (amended): for every start/end coordinate and every POSITIVE spacing,
`generate_waypoints` raises an uncaught division-by-zero fault (modelled by
`none`) if and only if the haversine distance is strictly less than the
spacing; otherwise it returns normally. -/
theorem C2_fault_iff (lat1 lon1 lat2 lon2 s : ℝ) (hs : 0 < s) :
    generate_waypoints (lat1, lon1) (lat2, lon2) s = none ↔
      haversine_distance lat1 lon1 lat2 lon2 < s := by
  rw [gw_none_iff lat1 lon1 lat2 lon2 s (ne_of_gt hs), Int.floor_eq_zero_iff, Set.mem_Ico]
  constructor
  · rintro ⟨-, h2⟩
    exact (div_lt_one hs).mp h2
  · intro h
    exact ⟨div_nonneg (haversine_nonneg lat1 lon1 lat2 lon2) hs.le, (div_lt_one hs).mpr h⟩

/-- Witness for C2 at spacing `1`. -/
theorem C2_witness :
    (0 : ℝ) < 1 ∧
    (generate_waypoints (0, 0) (0, 0) 1 = none ↔ haversine_distance 0 0 0 0 < 1) :=
  ⟨by norm_num, C2_fault_iff 0 0 0 0 1 (by norm_num)⟩

/-- C3: whenever `generate_waypoints` returns normally with a nonempty list,
the first waypoint carries exactly the start latitude and longitude and the
last waypoint the end latitude and longitude (exact over the real-valued
semantics). -/
theorem C3_endpoints (lat1 lon1 lat2 lon2 s : ℝ) (l : List Waypoint) (w wl : Waypoint)
    (hgw : generate_waypoints (lat1, lon1) (lat2, lon2) s = some l)
    (hw : l.head? = some w) (hwl : l.getLast? = some wl) :
    w.1 = lat1 ∧ w.2.1 = lon1 ∧ wl.1 = lat2 ∧ wl.2.1 = lon2 := by
  by_cases hs : s = 0
  · rw [hs] at hgw
    unfold generate_waypoints at hgw
    simp at hgw
  by_cases hn : ⌊haversine_distance lat1 lon1 lat2 lon2 / s⌋ = 0
  · rw [(gw_none_iff lat1 lon1 lat2 lon2 s hs).mpr hn] at hgw
    simp at hgw
  · rw [gw_eq_some lat1 lon1 lat2 lon2 s hs hn] at hgw
    obtain rfl : l = _ := (Option.some.inj hgw).symm
    set np := ⌊haversine_distance lat1 lon1 lat2 lon2 / s⌋ with hnp
    rcases lt_or_gt_of_ne hn with hneg | hpos
    · rw [show (np + 1).toNat = 0 from by omega] at hw
      simp [List.range_zero] at hw
    · have htn : (np + 1).toNat = np.toNat + 1 := by omega
      rw [htn, head_map_range] at hw
      rw [htn, getLast_map_range] at hwl
      obtain rfl : w = _ := (Option.some.inj hw).symm
      obtain rfl : wl = _ := (Option.some.inj hwl).symm
      have hnpR : ((np : ℤ) : ℝ) ≠ 0 := by
        exact_mod_cast hpos.ne'
      have hcast : ((np.toNat : ℕ) : ℝ) = ((np : ℤ) : ℝ) := by
        rw [← Int.cast_natCast, Int.toNat_of_nonneg hpos.le]
      have hfrac : ((np.toNat : ℕ) : ℝ) / ((np : ℤ) : ℝ) = 1 := by
        rw [hcast]
        exact div_self hnpR
      refine ⟨?_, ?_, ?_, ?_⟩
      · show lat1 + (lat2 - lat1) * (((0 : ℕ) : ℝ) / ((np : ℤ) : ℝ)) = lat1
        norm_num
      · show lon1 + (lon2 - lon1) * (((0 : ℕ) : ℝ) / ((np : ℤ) : ℝ)) = lon1
        norm_num
      · show lat1 + (lat2 - lat1) * (((np.toNat : ℕ) : ℝ) / ((np : ℤ) : ℝ)) = lat2
        rw [hfrac]
        ring
      · show lon1 + (lon2 - lon1) * (((np.toNat : ℕ) : ℝ) / ((np : ℤ) : ℝ)) = lon2
        rw [hfrac]
        ring

/-- Witness for C3 on the fully evaluated run `gw_concrete`. -/
theorem C3_witness :
    (generate_waypoints (0, 0) (0, 180) 6371000 =
      some [(0, 0, 100), (0, 60, 100), (0, 120, 100), (0, 180, 100)]) ∧
    (((0 : ℝ), (0 : ℝ), (100 : ℝ)).1 = 0 ∧ ((0 : ℝ), (0 : ℝ), (100 : ℝ)).2.1 = 0 ∧
      ((0 : ℝ), (180 : ℝ), (100 : ℝ)).1 = 0 ∧ ((0 : ℝ), (180 : ℝ), (100 : ℝ)).2.1 = 180) :=
  ⟨gw_concrete, C3_endpoints 0 0 0 180 6371000 _ _ _ gw_concrete rfl rfl⟩

/-- C9: every waypoint of a normally returned list has altitude exactly `100`;
the altitude is the hardcoded constant of the source, not computed from the
inputs. -/
theorem C9_altitude_constant (lat1 lon1 lat2 lon2 s : ℝ) (l : List Waypoint)
    (hgw : generate_waypoints (lat1, lon1) (lat2, lon2) s = some l) :
    ∀ w ∈ l, w.2.2 = 100 := by
  by_cases hs : s = 0
  · rw [hs] at hgw
    unfold generate_waypoints at hgw
    simp at hgw
  by_cases hn : ⌊haversine_distance lat1 lon1 lat2 lon2 / s⌋ = 0
  · rw [(gw_none_iff lat1 lon1 lat2 lon2 s hs).mpr hn] at hgw
    simp at hgw
  · rw [gw_eq_some lat1 lon1 lat2 lon2 s hs hn] at hgw
    obtain rfl : l = _ := (Option.some.inj hgw).symm
    intro w hwmem
    obtain ⟨i, -, rfl⟩ := List.mem_map.mp hwmem
    rfl

/-- Witness for C9 on the fully evaluated run `gw_concrete`. -/
theorem C9_witness :
    (generate_waypoints (0, 0) (0, 180) 6371000 =
      some [(0, 0, 100), (0, 60, 100), (0, 120, 100), (0, 180, 100)]) ∧
    ((0 : ℝ), (60 : ℝ), (100 : ℝ)).2.2 = 100 :=
  ⟨gw_concrete, C9_altitude_constant 0 0 0 180 6371000 _ gw_concrete (0, 60, 100)
    (List.mem_cons.mpr (Or.inr (List.mem_cons_self _ _)))⟩

/-- C10: every waypoint of a normally returned list is the convex combination
of start and end at blend fraction `i / num_points ∈ [0, 1]`: latitudes stay
between `min lat1 lat2` and `max lat1 lat2`, longitudes between
`min lon1 lon2` and `max lon1 lon2`, and the blend fractions are monotone
along the list. -/
theorem C10_convex_combination (lat1 lon1 lat2 lon2 s : ℝ) (l : List Waypoint)
    (hgw : generate_waypoints (lat1, lon1) (lat2, lon2) s = some l) :
    (∀ w ∈ l,
      min lat1 lat2 ≤ w.1 ∧ w.1 ≤ max lat1 lat2 ∧
      min lon1 lon2 ≤ w.2.1 ∧ w.2.1 ≤ max lon1 lon2) ∧
    (∀ i : ℕ, i < l.length →
      0 ≤ (i : ℝ) / ((⌊haversine_distance lat1 lon1 lat2 lon2 / s⌋ : ℤ) : ℝ) ∧
      (i : ℝ) / ((⌊haversine_distance lat1 lon1 lat2 lon2 / s⌋ : ℤ) : ℝ) ≤ 1) ∧
    (∀ i j : ℕ, i ≤ j → j < l.length →
      (i : ℝ) / ((⌊haversine_distance lat1 lon1 lat2 lon2 / s⌋ : ℤ) : ℝ) ≤
        (j : ℝ) / ((⌊haversine_distance lat1 lon1 lat2 lon2 / s⌋ : ℤ) : ℝ)) := by
  by_cases hs : s = 0
  · rw [hs] at hgw
    unfold generate_waypoints at hgw
    simp at hgw
  by_cases hn : ⌊haversine_distance lat1 lon1 lat2 lon2 / s⌋ = 0
  · rw [(gw_none_iff lat1 lon1 lat2 lon2 s hs).mpr hn] at hgw
    simp at hgw
  · rw [gw_eq_some lat1 lon1 lat2 lon2 s hs hn] at hgw
    obtain rfl : l = _ := (Option.some.inj hgw).symm
    set np := ⌊haversine_distance lat1 lon1 lat2 lon2 / s⌋ with hnp
    rcases lt_or_gt_of_ne hn with hneg | hpos
    · rw [show (np + 1).toNat = 0 from by omega]
      refine ⟨?_, ?_, ?_⟩
      · intro w hwmem
        simp [List.range_zero] at hwmem
      · intro i hi
        simp [List.range_zero] at hi
      · intro i j hij hj
        simp [List.range_zero] at hj
    · have hnpR : (0 : ℝ) < ((np : ℤ) : ℝ) := by
        exact_mod_cast hpos
      have hle : ∀ i : ℕ, i < (np + 1).toNat → (i : ℝ) ≤ ((np : ℤ) : ℝ) := by
        intro i hi
        have : (i : ℤ) ≤ np := by omega
        exact_mod_cast this
      have hfrac : ∀ i : ℕ, i < (np + 1).toNat →
          0 ≤ (i : ℝ) / ((np : ℤ) : ℝ) ∧ (i : ℝ) / ((np : ℤ) : ℝ) ≤ 1 := by
        intro i hi
        constructor
        · exact div_nonneg (Nat.cast_nonneg i) hnpR.le
        · rw [div_le_one hnpR]
          exact hle i hi
      refine ⟨?_, ?_, ?_⟩
      · intro w hwmem
        obtain ⟨i, hi, rfl⟩ := List.mem_map.mp hwmem
        rw [List.mem_range] at hi
        obtain ⟨hf0, hf1⟩ := hfrac i hi
        obtain ⟨ha1, ha2⟩ := interp_bounds lat1 lat2 _ hf0 hf1
        obtain ⟨ho1, ho2⟩ := interp_bounds lon1 lon2 _ hf0 hf1
        exact ⟨ha1, ha2, ho1, ho2⟩
      · intro i hi
        rw [List.length_map, List.length_range] at hi
        exact hfrac i hi
      · intro i j hij hj
        rw [List.length_map, List.length_range] at hj
        rw [div_le_div_right hnpR]
        exact_mod_cast hij

/-- Witness for C10 on the fully evaluated run `gw_concrete`. -/
theorem C10_witness :
    (generate_waypoints (0, 0) (0, 180) 6371000 =
      some [(0, 0, 100), (0, 60, 100), (0, 120, 100), (0, 180, 100)]) ∧
    (min (0 : ℝ) 0 ≤ ((0 : ℝ), (60 : ℝ), (100 : ℝ)).1 ∧
      ((0 : ℝ), (60 : ℝ), (100 : ℝ)).1 ≤ max (0 : ℝ) 0 ∧
      min (0 : ℝ) 180 ≤ ((0 : ℝ), (60 : ℝ), (100 : ℝ)).2.1 ∧
      ((0 : ℝ), (60 : ℝ), (100 : ℝ)).2.1 ≤ max (0 : ℝ) 180) ∧
    ((1 : ℕ) : ℝ) / ((⌊haversine_distance 0 0 0 180 / 6371000⌋ : ℤ) : ℝ) ≤
      ((2 : ℕ) : ℝ) / ((⌊haversine_distance 0 0 0 180 / 6371000⌋ : ℤ) : ℝ) := by
  obtain ⟨hb, hf, hm⟩ := C10_convex_combination 0 0 0 180 6371000 _ gw_concrete
  refine ⟨gw_concrete, hb (0, 60, 100) (List.mem_cons.mpr (Or.inr (List.mem_cons_self _ _))), ?_⟩
  exact hm 1 2 (by norm_num) (by simp)

end FlightPlanner
